import Mathlib

/-!
Shallow embedding of `src/bot.py` (Mobile Leak Checker Telegram bot).

Python strings are modelled as Lean `String` (sequences of Unicode code
points, matching Python `len` and slicing semantics). Python JSON values
are modelled by the mutual inductive `Json` (mutual rather than nested so
that recursion over it stays structural and kernel-reducible). Python
`time.time()` timestamps are modelled as rationals. The mutable
module-level `LAST_CALL` map is passed as explicit state. Network requests
are modelled by an oracle from the request URL to either an exception
message or a response.
-/

mutual
/-- JSON values as produced by `requests.Response.json()`. Numbers are
modelled as integers (no claim exercises fractional numbers). Objects keep
insertion order, as Python dicts do. -/
inductive Json where
  | null : Json
  | bool (b : Bool) : Json
  | num (n : Int) : Json
  | str (s : String) : Json
  | arr (l : JArr) : Json
  | obj (l : JObj) : Json

/-- A JSON array, as a mutual-inductive list of values. -/
inductive JArr where
  | nil : JArr
  | cons (hd : Json) (tl : JArr) : JArr

/-- A JSON object, as a mutual-inductive list of key-value entries. -/
inductive JObj where
  | nil : JObj
  | cons (k : String) (v : Json) (tl : JObj) : JObj
end

/-- Build a JSON array from a Lean list. -/
def jarr (l : List Json) : Json :=
  Json.arr (l.foldr JArr.cons JArr.nil)

/-- Build a JSON object from a Lean list of entries. -/
def jobj (l : List (String × Json)) : Json :=
  Json.obj (l.foldr (fun kv t => JObj.cons kv.1 kv.2 t) JObj.nil)

/-- The elements of a JSON array as a Lean list. -/
def JArr.toList : JArr → List Json
  | JArr.nil => []
  | JArr.cons j js => j :: js.toList

/-- The entries of a JSON object as a Lean list. -/
def JObj.toList : JObj → List (String × Json)
  | JObj.nil => []
  | JObj.cons k v kvs => (k, v) :: kvs.toList

/-- Python truthiness of a JSON value: `None`, `False`, `0`, `""`, `[]`
and `\x7b\x7d` are falsy, everything else truthy. -/
def jtruthy : Json → Bool
  | Json.null => false
  | Json.bool b => b
  | Json.num n => n != 0
  | Json.str s => s != ""
  | Json.arr JArr.nil => false
  | Json.arr (JArr.cons _ _) => true
  | Json.obj JObj.nil => false
  | Json.obj (JObj.cons _ _ _) => true

/-- A single-quote character, used by the Python `repr` of strings. -/
def squote : String := String.singleton (Char.ofNat 39)

mutual
/-- Python `repr` of a JSON value (used by `str` on lists and dicts).
String escaping inside `repr` is not modelled; no claim exercises it. -/
def pyRepr : Json → String
  | Json.null => "None"
  | Json.bool true => "True"
  | Json.bool false => "False"
  | Json.num n => toString n
  | Json.str s => squote ++ s ++ squote
  | Json.arr l => "[" ++ pyReprItems l ++ "]"
  | Json.obj l => "\x7b" ++ pyReprEntries l ++ "\x7d"

/-- Comma-separated `repr` of array elements. -/
def pyReprItems : JArr → String
  | JArr.nil => ""
  | JArr.cons j JArr.nil => pyRepr j
  | JArr.cons j (JArr.cons j2 js) => pyRepr j ++ ", " ++ pyReprItems (JArr.cons j2 js)

/-- Comma-separated `repr` of object entries. -/
def pyReprEntries : JObj → String
  | JObj.nil => ""
  | JObj.cons k v JObj.nil => squote ++ k ++ squote ++ ": " ++ pyRepr v
  | JObj.cons k v (JObj.cons k2 v2 kvs) =>
      squote ++ k ++ squote ++ ": " ++ pyRepr v ++ ", " ++ pyReprEntries (JObj.cons k2 v2 kvs)
end

/-- Python `str()` of a JSON value: strings pass through, other values
render as their `repr`. -/
def pyStr : Json → String
  | Json.str s => s
  | j => pyRepr j

/-- Python slicing `s[:n]` (by code points, like Python). -/
def pyTake (s : String) (n : Nat) : String := String.mk (s.data.take n)

/-- Python slicing `s[-n:]` for `n` at most `len(s)` (by code points). -/
def pyTakeRight (s : String) (n : Nat) : String :=
  String.mk (s.data.drop (s.data.length - n))

/-- Whitespace characters stripped by Python `str.strip()` (the ASCII
ones; exotic Unicode whitespace is outside the modelled alphabet). -/
def pyIsSpace (c : Char) : Bool :=
  c = ' ' || c = '\t' || c = '\n' || c = '\r' || c = '\x0b' || c = '\x0c'

/-- Python `str.strip()`. -/
def pyStrip (cs : List Char) : List Char :=
  ((cs.dropWhile pyIsSpace).reverse.dropWhile pyIsSpace).reverse

/-- Python `str.split("!")` on the character list: splits on every
occurrence of the bang, keeping empty segments. -/
def splitBang : List Char → List (List Char)
  | [] => [[]]
  | c :: cs =>
      let rest := splitBang cs
      if c = '!' then [] :: rest
      else (c :: rest.headD []) :: rest.tail

/-- Python `str(addr).replace(";", "!")`: both separators become the bang. -/
def replaceSemiByBang (cs : List Char) : List Char :=
  cs.map (fun c => if c = ';' then '!' else c)

/-- The address segments computed by `redact_address`:
`[p.strip() for p in str(addr).replace(";", "!").split("!") if p.strip()]`. -/
def addrParts (s : String) : List String :=
  ((splitBang (replaceSemiByBang s.data)).map (fun p => String.mk (pyStrip p))).filter
    (fun p => p != "")

/-- Helper: `validate_indian_number` strips non-digit characters (`ch.isdigit()`
modelled as the ASCII digit test) before checking. -/
def digitsOf (n : String) : String :=
  String.mk (n.data.filter (fun c => c.isDigit))

/-- Source `bot.py` line 52: `validate_indian_number(n)` returns the cleaned
digit string when it has length 10 and starts with 6, 7, 8 or 9, and the
`None` sentinel otherwise. It is a total function: no input raises. -/
def validate_indian_number (n : String) : Option String :=
  let s := digitsOf n
  if s.length = 10 ∧ s.data.headD 'A' ∈ ['6', '7', '8', '9'] then some s else none

/-- Source `bot.py` line 56: `redact_mobile`. -/
def redact_mobile (m : Json) : String :=
  if jtruthy m = false then ""
  else
    let s := pyStr m
    if 4 ≤ s.length then "***-***-" ++ pyTakeRight s 4 else "***"

/-- Source `bot.py` line 61: `redact_id`. -/
def redact_id (idn : Json) : String :=
  if jtruthy idn = false then ""
  else
    let s := pyStr idn
    if 4 < s.length then pyTake s 1 ++ "***" ++ pyTakeRight s 2 else "***"

/-- Source `bot.py` line 66: `redact_address`. -/
def redact_address (addr : Json) : String :=
  if jtruthy addr = false then "REDACTED"
  else
    match addrParts (pyStr addr) with
    | [] => "REDACTED"
    | [p] => pyTake p 30 ++ (if 30 < p.length then "..." else "")
    | p :: q :: rest => pyTake p 30 ++ " ... " ++ ((q :: rest).getLastD "")

/-- Python `dict` lookup on an association list (keys are unique in a
Python dict, so first match is the match). -/
def lookupField (l : List (String × Json)) (k : String) : Option Json :=
  match l with
  | [] => none
  | (k2, v) :: rest => if k2 = k then some v else lookupField rest k

/-- Python `r.get(k)` (default `None` modelled as `Option`). -/
def pyGet (r : List (String × Json)) (k : String) : Option Json :=
  lookupField r k

/-- Python `r.get(k, d)`. -/
def pyGetD (r : List (String × Json)) (k : String) (d : Json) : Json :=
  (lookupField r k).getD d

/-- Python `a or b`. -/
def pyOr (a b : Json) : Json :=
  if jtruthy a then a else b

/-- Source `bot.py` line 74: `redact_record`. The result keeps the insertion
order of the Python dict literal. -/
def redact_record (r : List (String × Json)) : List (String × Json) :=
  [ ("id", Json.str (redact_id (pyOr (pyGetD r "id" Json.null) (pyGetD r "id_number" (Json.str ""))))),
    ("mobile", Json.str (redact_mobile (pyOr (pyGetD r "mobile" Json.null) (Json.str "")))),
    ("alt_mobile", Json.str (redact_mobile (pyOr (pyGetD r "alt_mobile" Json.null) (Json.str "")))),
    ("name", pyGetD r "name" (Json.str "")),
    ("father_name", pyGetD r "father_name" (Json.str "")),
    ("address", Json.str (redact_address (pyGetD r "address" (Json.str "")))),
    ("circle", pyGetD r "circle" (Json.str "")),
    ("id_number", Json.str (redact_id (pyGetD r "id_number" (Json.str "")))) ]

/-- Source `bot.py` line 48: the `LAST_CALL` map from chat id to the timestamp
of the last accepted call. -/
abbrev RState := List (Int × ℚ)

/-- Helper for `LAST_CALL.get(chat_id, 0)`: the recorded timestamp. -/
def lookupCall (st : RState) (chat : Int) : Option ℚ :=
  match st with
  | [] => none
  | (c, t) :: rest => if c = chat then some t else lookupCall rest chat

/-- Update `LAST_CALL[chat_id] = now`. -/
def setCall (st : RState) (chat : Int) (now : ℚ) : RState :=
  match st with
  | [] => [(chat, now)]
  | (c, t) :: rest => if c = chat then (c, now) :: rest else (c, t) :: setCall rest chat now

/-- Source `bot.py` line 49: `COOLDOWN = 3` seconds between calls per chat. -/
def COOLDOWN : ℚ := 3

/-- Source `bot.py` line 86: `rate_limited(chat_id)`. Returns the limited flag,
the remaining wait, and the `LAST_CALL` state after the call (the check
records the call as a side effect when it is not limited). -/
def rate_limited (chat : Int) (now : ℚ) (st : RState) : Bool × ℚ × RState :=
  let last := (lookupCall st chat).getD 0
  if now - last < COOLDOWN then (true, COOLDOWN - (now - last), st)
  else (false, 0, setCall st chat now)

/-- The admin-gate configuration: `ADMIN_TOKEN` (empty string when the
environment variable is unset) and `ADMIN_ID` (`None` when unset; the
Python code also treats a configured id of `0` as falsy). -/
structure AdminCfg where
  adminToken : String
  adminId : Option Int

/-- Observable output of a command handler: chat messages in order, file
attachments as (filename, content), and the upstream URLs requested. -/
structure HOut where
  messages : List String
  documents : List (String × String)
  calls : List String
deriving DecidableEq

/-- Source `bot.py` line 95: the `require_admin` decorator. When the gate denies,
the wrapped handler body is never run; `inner` is the output the wrapped
handler would produce. -/
def require_admin (acfg : AdminCfg) (user : Option Int) (inner : HOut) : HOut :=
  if acfg.adminToken = "" ∨ acfg.adminId.getD 0 = 0 then
    ⟨["Admin functionality not configured on server."], [], []⟩
  else if user = acfg.adminId then inner
  else ⟨["You are not authorized to use this command."], [], []⟩

/-- Upstream base URL and API key (`REMOTE_API_BASE`, `REMOTE_API_KEY`). -/
structure BotConfig where
  base : String
  key : String

/-- A completed HTTP response: status code, body text (`r.text`), and the
parsed JSON body (`r.json()`, `none` when parsing raises). -/
structure UpResp where
  status : Nat
  text : String
  json : Option Json

/-- A network oracle: `Except.error e` models `requests.get` raising an
exception rendered as `e`; `Except.ok r` models a completed response. -/
def Upstream := String → Except String UpResp

/-- Hexadecimal digit, for JSON control-character escapes. -/
def hexDigit (n : Nat) : String :=
  String.singleton (Char.ofNat (if n < 10 then 48 + n else 87 + n))

/-- Python `json.dumps` escaping of one character (`ensure_ascii=False`, so
non-ASCII characters pass through unescaped). -/
def jsonEscapeChar (c : Char) : String :=
  if c = '"' then "\\\""
  else if c = '\\' then "\\\\"
  else if c = '\n' then "\\n"
  else if c = '\t' then "\\t"
  else if c = '\r' then "\\r"
  else if c = '\x08' then "\\b"
  else if c = '\x0c' then "\\f"
  else if c.toNat < 32 then "\\u00" ++ hexDigit (c.toNat / 16) ++ hexDigit (c.toNat % 16)
  else String.singleton c

/-- Python `json.dumps` escaping of a whole string. -/
def jsonEscape (s : String) : String :=
  s.data.foldr (fun c acc => jsonEscapeChar c ++ acc) ""

/-- Python `json.dumps` rendering of a string literal. -/
def quoteJson (s : String) : String :=
  "\"" ++ jsonEscape s ++ "\""

/-- Indentation for `json.dumps(..., indent=2)`. -/
def indentStr (n : Nat) : String := String.mk (List.replicate n ' ')

mutual
/-- Python `json.dumps(v, indent=2, ensure_ascii=False)` at indentation level
`ind`: Python pretty-prints containers one element per line, indenting by
two spaces per level. -/
def dumps (ind : Nat) : Json → String
  | Json.null => "null"
  | Json.bool true => "true"
  | Json.bool false => "false"
  | Json.num n => toString n
  | Json.str s => quoteJson s
  | Json.arr JArr.nil => "[]"
  | Json.arr (JArr.cons j js) =>
      "[\n" ++ dumpsItems (ind + 2) (JArr.cons j js) ++ "\n" ++ indentStr ind ++ "]"
  | Json.obj JObj.nil => "\x7b\x7d"
  | Json.obj (JObj.cons k v kvs) =>
      "\x7b\n" ++ dumpsFields (ind + 2) (JObj.cons k v kvs) ++ "\n" ++ indentStr ind ++ "\x7d"

/-- Array elements of `json.dumps`, one per line, comma-separated. -/
def dumpsItems (ind : Nat) : JArr → String
  | JArr.nil => ""
  | JArr.cons j JArr.nil => indentStr ind ++ dumps ind j
  | JArr.cons j (JArr.cons j2 js) =>
      indentStr ind ++ dumps ind j ++ ",\n" ++ dumpsItems ind (JArr.cons j2 js)

/-- Object entries of `json.dumps`, one per line, comma-separated. -/
def dumpsFields (ind : Nat) : JObj → String
  | JObj.nil => ""
  | JObj.cons k v JObj.nil => indentStr ind ++ quoteJson k ++ ": " ++ dumps ind v
  | JObj.cons k v (JObj.cons k2 v2 kvs) =>
      indentStr ind ++ quoteJson k ++ ": " ++ dumps ind v ++ ",\n" ++ dumpsFields ind (JObj.cons k2 v2 kvs)
end

/-- Python `data.startswith(p)`. -/
def pyStartsWith (p s : String) : Bool := p.data.isPrefixOf s.data

/-- Everything after the first bar character, on character lists. -/
def afterBar : List Char → List Char
  | [] => []
  | c :: cs => if c = '|' then cs else afterBar cs

/-- Python `data.split("|", 1)[1]`: everything after the first bar. The
handler only evaluates this when `data` starts with `"confirm|"`, so a
bar is always present. -/
def afterBarStr (data : String) : String := String.mk (afterBar data.data)

/-- Source `bot.py` line 186: `rows = payload if isinstance(payload, list) else
([payload] if payload else [])`. -/
def rowsOf (payload : Json) : List Json :=
  match payload with
  | Json.arr l => l.toList
  | j => if jtruthy j then [j] else []

/-- The entries of a record row. Each row reaching `redact_record` is a
dict; on a non-dict row the Python code would raise `AttributeError`
inside the handler (a failure mode outside every claim), and such a row
is given no entries here. -/
def jfields : Json → List (String × Json)
  | Json.obj l => l.toList
  | _ => []

/-- The redacted rows prepared by the confirm branch:
`[redact_record(rec) for rec in rows]`. -/
def redactedRows (payload : Json) : List Json :=
  (rowsOf payload).map (fun rec => jobj (redact_record (jfields rec)))

/-- Python `json.dumps(redacted, indent=2, ensure_ascii=False)`. -/
def redactedPretty (payload : Json) : String :=
  dumps 0 (jarr (redactedRows payload))

/-- Observable output of the callback handler: messages (sent or edited)
in order, file attachments, upstream URLs requested, and the rate-limit
state afterwards. -/
structure CbOut where
  messages : List String
  documents : List (String × String)
  calls : List String
  state : RState
deriving DecidableEq

/-- Source `bot.py` lines 155-200: the `confirm|` branch of
`callback_query_handler`, for the number `num` carried in the callback
payload. -/
def confirm_branch (cfg : BotConfig) (num : String) (chat : Int) (now : ℚ)
    (st : RState) (up : Upstream) : CbOut :=
  let res := rate_limited chat now st
  if res.1 then
    ⟨["Rate limit: try again in " ++ toString (res.2.1.floor + 1) ++ "s."], [], [], res.2.2⟩
  else
    let st2 := res.2.2
    let url := cfg.base ++ "?num=" ++ num ++ "&key=" ++ cfg.key
    match up url with
    | Except.error e =>
        ⟨["Checking... (server-side call)", "Upstream request failed: " ++ e], [], [url], st2⟩
    | Except.ok r =>
        if r.status ≠ 200 then
          ⟨["Checking... (server-side call)",
            "Upstream error: " ++ toString r.status ++ " — " ++ pyTake r.text 500], [], [url], st2⟩
        else
          match r.json with
          | none =>
              ⟨["Checking... (server-side call)",
                "Upstream returned non-json:\n\n" ++ pyTake r.text 4000], [], [url], st2⟩
          | some payload =>
              let rows := rowsOf payload
              if rows.isEmpty then
                ⟨["Checking... (server-side call)", "Good — no records found for this number."],
                 [], [url], st2⟩
              else
                let pretty := redactedPretty payload
                if 4000 < pretty.length then
                  ⟨["Checking... (server-side call)",
                    "Found " ++ toString rows.length ++ " record(s). Sent redacted JSON as file."],
                   [("result-" ++ num ++ ".json", pretty)], [url], st2⟩
                else
                  ⟨["Checking... (server-side call)",
                    "Found " ++ toString rows.length ++ " record(s). Redacted results:\n\n<pre>" ++
                      pretty ++ "</pre>"], [], [url], st2⟩

/-- Source `bot.py` line 145: `callback_query_handler` on callback data `data`.
A `cancel` payload acknowledges; a `confirm|` payload runs the confirm
branch on the number after the bar; anything else falls through. -/
def callback_query_handler (cfg : BotConfig) (data : String) (chat : Int) (now : ℚ)
    (st : RState) (up : Upstream) : CbOut :=
  if data = "cancel" then ⟨["Cancelled."], [], [], st⟩
  else if pyStartsWith "confirm|" data then
    confirm_branch cfg (afterBarStr data) chat now st up
  else ⟨[], [], [], st⟩

/-- Source `bot.py` lines 204-233: the body of `raw_cmd` (the part wrapped by
`require_admin`). -/
def raw_cmd_body (cfg : BotConfig) (args : List String) (up : Upstream) : HOut :=
  match args with
  | [] => ⟨["Usage: /raw 7990127515"], [], []⟩
  | num :: _ =>
    match validate_indian_number num with
    | none => ⟨["Enter valid 10-digit Indian number."], [], []⟩
    | some clean =>
      let url := cfg.base ++ "?num=" ++ clean ++ "&key=" ++ cfg.key
      match up url with
      | Except.error e =>
          ⟨["Fetching raw upstream (admin) ...", "Upstream request failed: " ++ e], [], [url]⟩
      | Except.ok r =>
          if r.status ≠ 200 then
            ⟨["Fetching raw upstream (admin) ...",
              "Upstream error: " ++ toString r.status ++ " — " ++ pyTake r.text 500], [], [url]⟩
          else
            match r.json with
            | none => ⟨["Fetching raw upstream (admin) ...", pyTake r.text 4000], [], [url]⟩
            | some payload =>
                let pretty := dumps 0 payload
                if 4000 < pretty.length then
                  ⟨["Fetching raw upstream (admin) ..."],
                   [("raw-" ++ clean ++ ".json", pretty)], [url]⟩
                else
                  ⟨["Fetching raw upstream (admin) ...", "<pre>" ++ pretty ++ "</pre>"], [], [url]⟩

/-- Source `bot.py` line 203: `/raw` is `raw_cmd_body` wrapped by the
`require_admin` decorator. -/
def raw_cmd (acfg : AdminCfg) (cfg : BotConfig) (user : Option Int) (args : List String)
    (up : Upstream) : HOut :=
  require_admin acfg user (raw_cmd_body cfg args up)

/-- Bool test for a contiguous sublist, by scanning every suffix. -/
def listHasInfix (needle : List Char) : List Char → Bool
  | [] => needle.isPrefixOf []
  | c :: cs => needle.isPrefixOf (c :: cs) || listHasInfix needle cs

/-- Substring test (Python `needle in hay`). -/
def strContains (hay needle : String) : Bool := listHasInfix needle.data hay.data

/-! ## Supporting lemmas -/

lemma digitsOf_idem (n : String) : digitsOf (digitsOf n) = digitsOf n :=
  congrArg String.mk (List.filter_eq_self.mpr (fun _ ha => List.of_mem_filter ha))

lemma redact_id_truthy_ne (j : Json) (h : jtruthy j = true) : redact_id j ≠ "" := by
  rw [redact_id, h]
  simp only [Bool.true_eq_false, if_false]
  split
  · intro hc
    have hl := congrArg String.length hc
    rw [String.length_append, String.length_append] at hl
    have h3 : ("***" : String).length = 3 := rfl
    have h0 : ("" : String).length = 0 := rfl
    rw [h3, h0] at hl
    omega
  · decide

/-! ## Claims -/

/-- Claim C1: for every input record, the Redactor maps fields as
follows: a mobile or alt_mobile value that is non-empty with length at
least 4 becomes `"***-***-"` followed by its last 4 characters, a
non-empty value shorter than 4 becomes `"***"`, and an empty value
becomes the empty string; an id or id_number value with length over 4
becomes its first character + `"***"` + its last 2 characters, a
non-empty value of length at most 4 becomes `"***"`, and an empty value
becomes the empty string; an address is split on semicolon or bang into
non-empty trimmed segments, with no segments yielding `"REDACTED"`, one
segment yielding its first 30 characters plus `"..."` if it was
truncated, and two or more segments yielding the first segment cut to 30
characters, then `" ... "`, then the last segment unchanged; name,
father_name and circle pass through unchanged. In particular
mobile `"9876543210"` maps to `"***-***-3210"`, mobile `""` to `""`,
id_number `"AB1234567"` to `"A***67"`, and id_number `"12"` to `"***"`. -/
theorem redactor_field_mapping :
    (∀ m : String, m ≠ "" → 4 ≤ m.length →
        redact_mobile (Json.str m) = "***-***-" ++ pyTakeRight m 4)
  ∧ (∀ m : String, m ≠ "" → m.length < 4 → redact_mobile (Json.str m) = "***")
  ∧ redact_mobile (Json.str "") = ""
  ∧ (∀ i : String, 4 < i.length →
        redact_id (Json.str i) = pyTake i 1 ++ "***" ++ pyTakeRight i 2)
  ∧ (∀ i : String, i ≠ "" → i.length ≤ 4 → redact_id (Json.str i) = "***")
  ∧ redact_id (Json.str "") = ""
  ∧ (∀ a : String, addrParts a = [] → redact_address (Json.str a) = "REDACTED")
  ∧ (∀ a p : String, addrParts a = [p] →
        redact_address (Json.str a) = pyTake p 30 ++ (if 30 < p.length then "..." else ""))
  ∧ (∀ a p q : String, ∀ rest : List String, addrParts a = p :: q :: rest →
        redact_address (Json.str a) = pyTake p 30 ++ " ... " ++ ((q :: rest).getLastD ""))
  ∧ (∀ r v, pyGet r "name" = some v → lookupField (redact_record r) "name" = some v)
  ∧ (∀ r v, pyGet r "father_name" = some v →
        lookupField (redact_record r) "father_name" = some v)
  ∧ (∀ r v, pyGet r "circle" = some v → lookupField (redact_record r) "circle" = some v)
  ∧ redact_mobile (Json.str "9876543210") = "***-***-3210"
  ∧ redact_id (Json.str "AB1234567") = "A***67"
  ∧ redact_id (Json.str "12") = "***" := by
  refine ⟨?_, ?_, by decide, ?_, ?_, by decide, ?_, ?_, ?_, ?_, ?_, ?_,
    by decide, by decide, by decide⟩
  · intro m hm h4
    have ht : jtruthy (Json.str m) = true := by simp [jtruthy, hm]
    rw [redact_mobile, ht]
    simp only [Bool.true_eq_false, if_false, pyStr]
    rw [if_pos h4]
  · intro m hm h4
    have ht : jtruthy (Json.str m) = true := by simp [jtruthy, hm]
    rw [redact_mobile, ht]
    simp only [Bool.true_eq_false, if_false, pyStr]
    rw [if_neg (by omega)]
  · intro i h4
    have ht : jtruthy (Json.str i) = true := by
      simp only [jtruthy, bne_iff_ne, ne_eq, decide_eq_true_eq]
      intro he
      rw [he] at h4
      simp [String.length] at h4
    rw [redact_id, ht]
    simp only [Bool.true_eq_false, if_false, pyStr]
    rw [if_pos h4]
  · intro i hi h4
    have ht : jtruthy (Json.str i) = true := by simp [jtruthy, hi]
    rw [redact_id, ht]
    simp only [Bool.true_eq_false, if_false, pyStr]
    rw [if_neg (by omega)]
  · intro a h
    by_cases ha : a = ""
    · subst ha; decide
    · have ht : jtruthy (Json.str a) = true := by simp [jtruthy, ha]
      rw [redact_address, ht]
      simp only [Bool.true_eq_false, if_false, pyStr]
      rw [h]
  · intro a p h
    by_cases ha : a = ""
    · subst ha
      have : addrParts "" = [] := by decide
      rw [this] at h
      exact absurd h (by simp)
    · have ht : jtruthy (Json.str a) = true := by simp [jtruthy, ha]
      rw [redact_address, ht]
      simp only [Bool.true_eq_false, if_false, pyStr]
      rw [h]
  · intro a p q rest h
    by_cases ha : a = ""
    · subst ha
      have : addrParts "" = [] := by decide
      rw [this] at h
      exact absurd h (by simp)
    · have ht : jtruthy (Json.str a) = true := by simp [jtruthy, ha]
      rw [redact_address, ht]
      simp only [Bool.true_eq_false, if_false, pyStr]
      rw [h]
  · intro r v h
    have hk : lookupField (redact_record r) "name" = some (pyGetD r "name" (Json.str "")) := rfl
    rw [hk, pyGetD]
    rw [pyGet] at h
    rw [h]
    rfl
  · intro r v h
    have hk : lookupField (redact_record r) "father_name" =
        some (pyGetD r "father_name" (Json.str "")) := rfl
    rw [hk, pyGetD]
    rw [pyGet] at h
    rw [h]
    rfl
  · intro r v h
    have hk : lookupField (redact_record r) "circle" = some (pyGetD r "circle" (Json.str "")) := rfl
    rw [hk, pyGetD]
    rw [pyGet] at h
    rw [h]
    rfl

/-- Witness for C1 at concrete inputs. -/
theorem redactor_field_mapping_witness :
    redact_mobile (Json.str "98765") = "***-***-8765"
  ∧ redact_mobile (Json.str "77") = "***"
  ∧ redact_id (Json.str "XYZ99") = "X***99"
  ∧ redact_address (Json.str "a;b;c") = "a ... c"
  ∧ lookupField (redact_record [("name", Json.str "N")]) "name" = some (Json.str "N") := by
  refine ⟨?_, ?_, ?_, ?_, ?_⟩
  · rw [redactor_field_mapping.1 "98765" (by decide) (by decide)]; decide
  · exact redactor_field_mapping.2.1 "77" (by decide) (by decide)
  · rw [redactor_field_mapping.2.2.2.1 "XYZ99" (by decide)]; decide
  · rw [redactor_field_mapping.2.2.2.2.2.2.2.2.1 "a;b;c" "a" "b" ["c"] (by decide)]; decide
  · exact redactor_field_mapping.2.2.2.2.2.2.2.2.2.1 [("name", Json.str "N")] (Json.str "N") rfl

/-- Claim C3: the Validator strips all non-digit characters and accepts
exactly when the stripped result has length 10 and first character in
6-9; on acceptance it returns the stripped string unchanged, otherwise
the `None` sentinel (it is a total function and never raises). -/
theorem validator_contract (n : String) :
    ((digitsOf n).length = 10 ∧ (digitsOf n).data.headD 'A' ∈ ['6', '7', '8', '9'] →
      validate_indian_number n = some (digitsOf n))
  ∧ (¬((digitsOf n).length = 10 ∧ (digitsOf n).data.headD 'A' ∈ ['6', '7', '8', '9']) →
      validate_indian_number n = none)
  ∧ (∀ c ∈ (digitsOf n).data, c.isDigit) := by
  refine ⟨fun h => ?_, fun h => ?_, fun _ hc => List.of_mem_filter hc⟩
  · simp only [validate_indian_number]
    exact if_pos h
  · simp only [validate_indian_number]
    exact if_neg h

/-- Witness for C3: one accepted and one rejected concrete input. -/
theorem validator_contract_witness :
    validate_indian_number "79-9012-7515" = some "7990127515"
  ∧ validate_indian_number "123" = none := by
  constructor
  · rw [(validator_contract "79-9012-7515").1 (by decide)]; decide
  · exact (validator_contract "123").2.1 (by decide)

/-- Claim C8: the Validator is idempotent on its own accepted output. -/
theorem validator_idempotent (n c : String) (h : validate_indian_number n = some c) :
    validate_indian_number c = some c := by
  simp only [validate_indian_number] at h ⊢
  by_cases hc : (digitsOf n).length = 10 ∧ (digitsOf n).data.headD 'A' ∈ ['6', '7', '8', '9']
  · rw [if_pos hc] at h
    obtain rfl : digitsOf n = c := Option.some.inj h
    rw [digitsOf_idem]
    exact if_pos hc
  · rw [if_neg hc] at h
    exact absurd h (by simp)

/-- Witness for C8 at a concrete accepted input. -/
theorem validator_idempotent_witness :
    validate_indian_number "7990127515" = some "7990127515" :=
  validator_idempotent "x7990127515y" "7990127515" (by decide)

/-- Claim C10: `redact_record` returns a map with exactly the eight keys
id, mobile, alt_mobile, name, father_name, address, circle, id_number
(in that order); the output id field comes from the id value when that is
present and truthy and otherwise falls back to the id_number value (so a
record carrying only a truthy id_number still yields a non-empty redacted
id); a separately redacted id_number field is always emitted; missing or
falsy mobile, alt_mobile, id and id_number fields yield the empty string,
and a missing address yields `"REDACTED"`. -/
theorem redact_record_shape (r : List (String × Json)) :
    (redact_record r).map Prod.fst =
      ["id", "mobile", "alt_mobile", "name", "father_name", "address", "circle", "id_number"]
  ∧ (jtruthy (pyGetD r "id" Json.null) = true →
      lookupField (redact_record r) "id" =
        some (Json.str (redact_id (pyGetD r "id" Json.null))))
  ∧ (jtruthy (pyGetD r "id" Json.null) = false →
      lookupField (redact_record r) "id" =
        some (Json.str (redact_id (pyGetD r "id_number" (Json.str "")))))
  ∧ (jtruthy (pyGetD r "id" Json.null) = false →
      jtruthy (pyGetD r "id_number" (Json.str "")) = true →
      lookupField (redact_record r) "id" ≠ some (Json.str ""))
  ∧ lookupField (redact_record r) "id_number" =
      some (Json.str (redact_id (pyGetD r "id_number" (Json.str ""))))
  ∧ (jtruthy (pyGetD r "mobile" Json.null) = false →
      lookupField (redact_record r) "mobile" = some (Json.str ""))
  ∧ (jtruthy (pyGetD r "alt_mobile" Json.null) = false →
      lookupField (redact_record r) "alt_mobile" = some (Json.str ""))
  ∧ (jtruthy (pyGetD r "id" Json.null) = false →
      jtruthy (pyGetD r "id_number" (Json.str "")) = false →
      lookupField (redact_record r) "id" = some (Json.str ""))
  ∧ (jtruthy (pyGetD r "id_number" (Json.str "")) = false →
      lookupField (redact_record r) "id_number" = some (Json.str ""))
  ∧ (pyGet r "address" = none →
      lookupField (redact_record r) "address" = some (Json.str "REDACTED")) := by
  have hid : lookupField (redact_record r) "id" =
      some (Json.str (redact_id (pyOr (pyGetD r "id" Json.null)
        (pyGetD r "id_number" (Json.str ""))))) := rfl
  have hidn : lookupField (redact_record r) "id_number" =
      some (Json.str (redact_id (pyGetD r "id_number" (Json.str "")))) := rfl
  have hmob : lookupField (redact_record r) "mobile" =
      some (Json.str (redact_mobile (pyOr (pyGetD r "mobile" Json.null) (Json.str "")))) := rfl
  have halt : lookupField (redact_record r) "alt_mobile" =
      some (Json.str (redact_mobile (pyOr (pyGetD r "alt_mobile" Json.null) (Json.str "")))) := rfl
  have haddr : lookupField (redact_record r) "address" =
      some (Json.str (redact_address (pyGetD r "address" (Json.str "")))) := rfl
  refine ⟨rfl, fun h => ?_, fun h => ?_, fun h h2 => ?_, hidn, fun h => ?_, fun h => ?_,
    fun h h2 => ?_, fun h => ?_, fun h => ?_⟩
  · rw [hid, pyOr, if_pos h]
  · rw [hid, pyOr, if_neg (by simp [h])]
  · rw [hid, pyOr, if_neg (by simp [h])]
    intro hc
    exact redact_id_truthy_ne _ h2 (Json.str.inj (Option.some.inj hc))
  · rw [hmob, pyOr, if_neg (by simp [h]),
      show redact_mobile (Json.str "") = "" from by decide]
  · rw [halt, pyOr, if_neg (by simp [h]),
      show redact_mobile (Json.str "") = "" from by decide]
  · have h0 : redact_id (pyGetD r "id_number" (Json.str "")) = "" := by
      simp [redact_id, h2]
    rw [hid, pyOr, if_neg (by simp [h]), h0]
  · have h0 : redact_id (pyGetD r "id_number" (Json.str "")) = "" := by
      simp [redact_id, h]
    rw [hidn, h0]
  · rw [pyGet] at h
    have h0 : pyGetD r "address" (Json.str "") = Json.str "" := by
      rw [pyGetD, h]
      rfl
    rw [haddr, h0, show redact_address (Json.str "") = "REDACTED" from by decide]

/-- Witness for C10 at a concrete record carrying only id_number. -/
theorem redact_record_shape_witness :
    lookupField (redact_record [("id_number", Json.str "AB1234567")]) "id" =
      some (Json.str "A***67")
  ∧ lookupField (redact_record [("id_number", Json.str "AB1234567")]) "address" =
      some (Json.str "REDACTED") := by
  constructor
  · rw [(redact_record_shape [("id_number", Json.str "AB1234567")]).2.2.1 (by decide),
      show redact_id (pyGetD [("id_number", Json.str "AB1234567")] "id_number" (Json.str "")) =
        "A***67" from by decide]
  · exact (redact_record_shape [("id_number", Json.str "AB1234567")]).2.2.2.2.2.2.2.2.2 rfl

lemma lookupCall_setCall (st : RState) (chat : Int) (now : ℚ) :
    lookupCall (setCall st chat now) chat = some now := by
  induction st with
  | nil => simp [setCall, lookupCall]
  | cons hd tl ih =>
      obtain ⟨c, t⟩ := hd
      by_cases hc : c = chat
      · subst hc
        simp [setCall, lookupCall]
      · simp [setCall, lookupCall, hc, ih]

lemma rate_limited_fresh (chat : Int) (now : ℚ) (h : COOLDOWN ≤ now) :
    rate_limited chat now [] = (false, 0, [(chat, now)]) := by
  simp only [rate_limited, lookupCall, Option.getD]
  rw [if_neg (by linarith)]
  rfl

/-- Counterexample for C4 as stated: with the empty `LAST_CALL` state
(no recorded call for chat 0) and current time 1, the code reports the
chat as limited, because a missing entry defaults to timestamp 0. -/
theorem rate_limiter_unrecorded_counterexample :
    lookupCall [] 0 = none ∧ (rate_limited 0 1 []).1 = true := by
  refine ⟨rfl, ?_⟩
  have h : (1 : ℚ) - (lookupCall [] 0).getD 0 < COOLDOWN := by
    simp only [lookupCall, Option.getD]
    norm_num [COOLDOWN]
  simp only [rate_limited]
  rw [if_pos h]

/-- Claim C4 (amended): a check is limited if and only if fewer than 3
seconds have elapsed since the recorded last-accepted timestamp for that
chat id, where a chat id with no recorded call is treated as last
accepted at time 0 (so it is limited exactly when the current time is
below 3); when limited, the returned remaining wait is strictly positive
and the stored state is left unchanged; when not limited, the stored
timestamp for that chat id is updated to the current time as a side
effect of the check itself. -/
theorem rate_limited_spec (chat : Int) (now : ℚ) (st : RState) :
    ((rate_limited chat now st).1 = true ↔ now - (lookupCall st chat).getD 0 < COOLDOWN)
  ∧ ((rate_limited chat now st).1 = true →
      0 < (rate_limited chat now st).2.1 ∧ (rate_limited chat now st).2.2 = st)
  ∧ ((rate_limited chat now st).1 = false →
      (rate_limited chat now st).2.1 = 0 ∧
      lookupCall (rate_limited chat now st).2.2 chat = some now) := by
  by_cases h : now - (lookupCall st chat).getD 0 < COOLDOWN
  · have e : rate_limited chat now st =
        (true, COOLDOWN - (now - (lookupCall st chat).getD 0), st) := by
      simp only [rate_limited]
      rw [if_pos h]
    rw [e]
    exact ⟨by simp [h], fun _ => ⟨by simp only []; linarith, rfl⟩, fun hf => by simp at hf⟩
  · have e : rate_limited chat now st = (false, 0, setCall st chat now) := by
      simp only [rate_limited]
      rw [if_neg h]
    rw [e]
    exact ⟨by simp [h], fun ht => by simp at ht, fun _ => ⟨rfl, lookupCall_setCall st chat now⟩⟩

/-- Witness for C4 (amended) at concrete inputs: a limited fresh check at
time 1 keeps the state, a non-limited fresh check at time 10 records the
current time. -/
theorem rate_limited_spec_witness :
    0 < (rate_limited 0 1 []).2.1 ∧ (rate_limited 0 1 []).2.2 = ([] : RState) ∧
    lookupCall (rate_limited 5 10 []).2.2 5 = some 10 := by
  have e1 : (rate_limited 0 1 []).1 = true := by
    rw [(rate_limited_spec 0 1 []).1]
    simp only [lookupCall, Option.getD]
    norm_num [COOLDOWN]
  have e2 : (rate_limited 5 10 []).1 = false := by
    rcases Bool.eq_false_or_eq_true (rate_limited 5 10 []).1 with htr | hf
    · exfalso
      have hc := (rate_limited_spec 5 10 []).1.mp htr
      simp only [lookupCall, Option.getD] at hc
      norm_num [COOLDOWN] at hc
    · exact hf
  have h1 := (rate_limited_spec 0 1 []).2.1 e1
  have h2 := (rate_limited_spec 5 10 []).2.2 e2
  exact ⟨h1.1, h1.2, h2.2⟩

lemma confirm_data (s : String) :
    ("confirm|" ++ s).data =
      'c' :: 'o' :: 'n' :: 'f' :: 'i' :: 'r' :: 'm' :: '|' :: s.data := by
  rw [String.data_append]
  rfl

lemma confirm_startsWith (s : String) :
    pyStartsWith "confirm|" ("confirm|" ++ s) = true := by
  simp only [pyStartsWith, List.isPrefixOf_iff_prefix, String.data_append]
  exact List.prefix_append _ _

lemma afterBar_cons (c : Char) (cs : List Char) :
    afterBar (c :: cs) = if c = '|' then cs else afterBar cs := rfl

lemma afterBarStr_confirm (s : String) : afterBarStr ("confirm|" ++ s) = s := by
  rw [afterBarStr, confirm_data]
  rw [afterBar_cons, if_neg (by decide)]
  rw [afterBar_cons, if_neg (by decide)]
  rw [afterBar_cons, if_neg (by decide)]
  rw [afterBar_cons, if_neg (by decide)]
  rw [afterBar_cons, if_neg (by decide)]
  rw [afterBar_cons, if_neg (by decide)]
  rw [afterBar_cons, if_neg (by decide)]
  rw [afterBar_cons, if_pos rfl]

lemma confirm_ne_cancel (s : String) : ("confirm|" ++ s) ≠ "cancel" := by
  intro h
  have hl := congrArg String.length h
  rw [String.length_append] at hl
  have h8 : ("confirm|" : String).length = 8 := rfl
  have h6 : ("cancel" : String).length = 6 := rfl
  rw [h8, h6] at hl
  omega

lemma callback_confirm (cfg : BotConfig) (s : String) (chat : Int) (now : ℚ)
    (st : RState) (up : Upstream) :
    callback_query_handler cfg ("confirm|" ++ s) chat now st up =
      confirm_branch cfg s chat now st up := by
  rw [callback_query_handler, if_neg (confirm_ne_cancel s), afterBarStr_confirm,
    confirm_startsWith, if_pos rfl]

/-- Claim C9 (implicit): for every string s, a callback whose data is
`"confirm|" ++ s` (s may be empty, non-numeric, or not a valid number)
passes only the rate-limiter gate and then issues the upstream request
with s embedded verbatim in the URL; the Validator is never re-run on the
number carried in the callback payload. When the rate limiter blocks, no
upstream call is made. -/
theorem confirm_path_no_validation (cfg : BotConfig) (s : String) (chat : Int) (now : ℚ)
    (st : RState) (up : Upstream) :
    ((rate_limited chat now st).1 = false →
      (callback_query_handler cfg ("confirm|" ++ s) chat now st up).calls =
        [cfg.base ++ "?num=" ++ s ++ "&key=" ++ cfg.key])
  ∧ ((rate_limited chat now st).1 = true →
      (callback_query_handler cfg ("confirm|" ++ s) chat now st up).calls = []) := by
  rw [callback_confirm]
  constructor
  · intro h
    simp only [confirm_branch, h, Bool.false_eq_true, ite_false]
    repeat' split
    all_goals rfl
  · intro h
    simp only [confirm_branch, h, ite_true]

/-- Witness for C9 at a concrete non-numeric payload. -/
theorem confirm_path_no_validation_witness :
    (callback_query_handler ⟨"B", "K"⟩ ("confirm|" ++ "abc!") 0 5 []
        (fun _ => Except.error "boom")).calls = ["B?num=abc!&key=K"] := by
  have e : (rate_limited 0 5 []).1 = false := by
    rw [rate_limited_fresh 0 5 (by norm_num [COOLDOWN])]
  rw [(confirm_path_no_validation ⟨"B", "K"⟩ "abc!" 0 5 [] (fun _ => Except.error "boom")).1 e]
  rfl

/-- Bool test for the array constructor. -/
def isArr : Json → Bool
  | Json.arr _ => true
  | _ => false

lemma jarr_toList (l : List Json) : (l.foldr JArr.cons JArr.nil).toList = l := by
  induction l with
  | nil => rfl
  | cons a t ih => simp [List.foldr, JArr.toList, ih]

/-- Claim C5: an HTTP 200 body that parses as JSON is classified as
follows: a list value becomes one record per element, with the empty list
giving the empty result (the no-records message); a non-list truthy value
becomes a single-element record list; a falsy value gives the empty
result. -/
theorem upstream_payload_classification :
    (∀ l : List Json, rowsOf (jarr l) = l)
  ∧ (∀ j : Json, isArr j = false → jtruthy j = true → rowsOf j = [j])
  ∧ (∀ j : Json, isArr j = false → jtruthy j = false → rowsOf j = [])
  ∧ (∀ cfg : BotConfig, ∀ s : String, ∀ chat : Int, ∀ now : ℚ, ∀ st : RState,
      ∀ t : String, ∀ payload : Json,
      (rate_limited chat now st).1 = false → rowsOf payload = [] →
      (callback_query_handler cfg ("confirm|" ++ s) chat now st
          (fun _ => Except.ok ⟨200, t, some payload⟩)).messages =
        ["Checking... (server-side call)", "Good — no records found for this number."]) := by
  refine ⟨fun l => by simp [rowsOf, jarr, jarr_toList], ?_, ?_, ?_⟩
  · intro j h1 h2
    cases j <;> simp_all [rowsOf, isArr]
  · intro j h1 h2
    cases j <;> simp_all [rowsOf, isArr]
  · intro cfg s chat now st t payload h hrows
    rw [callback_confirm]
    simp only [confirm_branch, h, Bool.false_eq_true, ite_false, hrows]
    simp

/-- Witness for C5 at concrete payloads: a truthy non-list value and an
empty-array response. -/
theorem upstream_payload_classification_witness :
    rowsOf (Json.str "x") = [Json.str "x"]
  ∧ (callback_query_handler ⟨"B", "K"⟩ ("confirm|" ++ "7990127515") 0 5 []
        (fun _ => Except.ok ⟨200, "", some (jarr [])⟩)).messages =
      ["Checking... (server-side call)", "Good — no records found for this number."] := by
  constructor
  · exact upstream_payload_classification.2.1 (Json.str "x") rfl (by decide)
  · have e : (rate_limited 0 5 []).1 = false := by
      rw [rate_limited_fresh 0 5 (by norm_num [COOLDOWN])]
    exact upstream_payload_classification.2.2.2 ⟨"B", "K"⟩ "7990127515" 0 5 [] "" (jarr [])
      e rfl

set_option maxRecDepth 100000 in
/-- Claim C2: end-to-end on the confirm path, for the valid input
`7990127515` with the upstream stubbed to return HTTP 200 with the JSON
body `[..mobile 9876543210, id_number AB1234567..]`, the final chat
output contains the substrings `***-***-3210` and `A***67`, and no chat
output contains the raw substrings `9876543210` or `AB1234567`. -/
theorem e2e_confirm_redaction (out : CbOut)
    (hout : out = callback_query_handler ⟨"https://osintt.onrender.com/index.php", "TheDarkAgain"⟩
        ("confirm|" ++ "7990127515") 1 100 []
        (fun _ => Except.ok ⟨200, "",
          some (jarr [jobj [("mobile", Json.str "9876543210"),
                            ("id_number", Json.str "AB1234567")]])⟩)) :
    validate_indian_number "7990127515" = some "7990127515"
  ∧ strContains (out.messages.getLastD "") "***-***-3210" = true
  ∧ strContains (out.messages.getLastD "") "A***67" = true
  ∧ out.messages.all (fun m => !strContains m "9876543210") = true
  ∧ out.messages.all (fun m => !strContains m "AB1234567") = true
  ∧ out.documents = [] := by
  subst hout
  have hrl := rate_limited_fresh 1 100 (by norm_num [COOLDOWN])
  simp only [callback_confirm, confirm_branch, hrl]
  decide

/-- Witness for C2: the theorem applied to the concrete handler run. -/
theorem e2e_confirm_redaction_witness :
    strContains ((callback_query_handler
        ⟨"https://osintt.onrender.com/index.php", "TheDarkAgain"⟩
        ("confirm|" ++ "7990127515") 1 100 []
        (fun _ => Except.ok ⟨200, "",
          some (jarr [jobj [("mobile", Json.str "9876543210"),
                            ("id_number", Json.str "AB1234567")]])⟩)).messages.getLastD "")
      "***-***-3210" = true :=
  (e2e_confirm_redaction _ rfl).2.1

lemma jsonEscape_replicate (n : Nat) :
    jsonEscape (String.mk (List.replicate n 'x')) = String.mk (List.replicate n 'x') := by
  induction n with
  | zero => rfl
  | succ k ih =>
      have h1 : String.mk (List.replicate (k + 1) 'x') =
          String.mk ('x' :: List.replicate k 'x') := by
        rw [List.replicate_succ]
      rw [h1]
      show jsonEscapeChar 'x' ++ jsonEscape (String.mk (List.replicate k 'x')) =
        String.mk ('x' :: List.replicate k 'x')
      rw [show jsonEscapeChar 'x' = String.singleton 'x' from by decide, ih]
      rfl

lemma dumps_str_replicate (n : Nat) :
    dumps 0 (Json.str (String.mk (List.replicate n 'x'))) =
      "\"" ++ String.mk (List.replicate n 'x') ++ "\"" := by
  show quoteJson (String.mk (List.replicate n 'x')) =
    "\"" ++ String.mk (List.replicate n 'x') ++ "\""
  rw [quoteJson, jsonEscape_replicate]

lemma dumps_str_replicate_length (n : Nat) :
    (dumps 0 (Json.str (String.mk (List.replicate n 'x')))).length = n + 2 := by
  rw [dumps_str_replicate, String.length_append, String.length_append]
  have hn : (String.mk (List.replicate n 'x')).length = n := by
    show (List.replicate n 'x').length = n
    simp
  rw [hn, show ("\"" : String).length = 1 from rfl]
  omega

/-- Claim C6: the indented JSON serialization is delivered inline as
preformatted text exactly when its length is at most 4000 characters and
as a file attachment exactly when its length exceeds 4000, on both the
redacted confirm path and the raw path; a serialization of 3999
characters goes inline and one of 4001 characters goes as a file, the
boundary being strict at 4000. -/
theorem rendering_size_boundary :
    (∀ cfg : BotConfig, ∀ num : String, ∀ chat : Int, ∀ now : ℚ, ∀ st : RState,
      ∀ t : String, ∀ payload : Json,
      (rate_limited chat now st).1 = false → rowsOf payload ≠ [] →
      (4000 < (redactedPretty payload).length →
        (callback_query_handler cfg ("confirm|" ++ num) chat now st
            (fun _ => Except.ok ⟨200, t, some payload⟩)).documents =
          [("result-" ++ num ++ ".json", redactedPretty payload)] ∧
        (callback_query_handler cfg ("confirm|" ++ num) chat now st
            (fun _ => Except.ok ⟨200, t, some payload⟩)).messages =
          ["Checking... (server-side call)",
           "Found " ++ toString (rowsOf payload).length ++
             " record(s). Sent redacted JSON as file."])
      ∧ ((redactedPretty payload).length ≤ 4000 →
        (callback_query_handler cfg ("confirm|" ++ num) chat now st
            (fun _ => Except.ok ⟨200, t, some payload⟩)).documents = [] ∧
        (callback_query_handler cfg ("confirm|" ++ num) chat now st
            (fun _ => Except.ok ⟨200, t, some payload⟩)).messages =
          ["Checking... (server-side call)",
           "Found " ++ toString (rowsOf payload).length ++
             " record(s). Redacted results:\n\n<pre>" ++ redactedPretty payload ++ "</pre>"]))
  ∧ (∀ cfg : BotConfig, ∀ num clean t : String, ∀ payload : Json,
      validate_indian_number num = some clean →
      (4000 < (dumps 0 payload).length →
        raw_cmd_body cfg [num] (fun _ => Except.ok ⟨200, t, some payload⟩) =
          ⟨["Fetching raw upstream (admin) ..."],
           [("raw-" ++ clean ++ ".json", dumps 0 payload)],
           [cfg.base ++ "?num=" ++ clean ++ "&key=" ++ cfg.key]⟩)
      ∧ ((dumps 0 payload).length ≤ 4000 →
        raw_cmd_body cfg [num] (fun _ => Except.ok ⟨200, t, some payload⟩) =
          ⟨["Fetching raw upstream (admin) ...", "<pre>" ++ dumps 0 payload ++ "</pre>"], [],
           [cfg.base ++ "?num=" ++ clean ++ "&key=" ++ cfg.key]⟩))
  ∧ ((dumps 0 (Json.str (String.mk (List.replicate 3997 'x')))).length = 3999 ∧
      (raw_cmd_body ⟨"B", "K"⟩ ["7990127515"]
          (fun _ => Except.ok ⟨200, "",
            some (Json.str (String.mk (List.replicate 3997 'x')))⟩)).documents = [])
  ∧ ((dumps 0 (Json.str (String.mk (List.replicate 3999 'x')))).length = 4001 ∧
      (raw_cmd_body ⟨"B", "K"⟩ ["7990127515"]
          (fun _ => Except.ok ⟨200, "",
            some (Json.str (String.mk (List.replicate 3999 'x')))⟩)).documents =
        [("raw-" ++ "7990127515" ++ ".json",
          dumps 0 (Json.str (String.mk (List.replicate 3999 'x'))))]) := by
  have hraw : ∀ cfg : BotConfig, ∀ num clean t : String, ∀ payload : Json,
      validate_indian_number num = some clean →
      (4000 < (dumps 0 payload).length →
        raw_cmd_body cfg [num] (fun _ => Except.ok ⟨200, t, some payload⟩) =
          ⟨["Fetching raw upstream (admin) ..."],
           [("raw-" ++ clean ++ ".json", dumps 0 payload)],
           [cfg.base ++ "?num=" ++ clean ++ "&key=" ++ cfg.key]⟩)
      ∧ ((dumps 0 payload).length ≤ 4000 →
        raw_cmd_body cfg [num] (fun _ => Except.ok ⟨200, t, some payload⟩) =
          ⟨["Fetching raw upstream (admin) ...", "<pre>" ++ dumps 0 payload ++ "</pre>"], [],
           [cfg.base ++ "?num=" ++ clean ++ "&key=" ++ cfg.key]⟩) := by
    intro cfg num clean t payload hval
    constructor <;> intro hlen
    · simp only [raw_cmd_body, hval]
      rw [if_neg (by norm_num : ¬(200 ≠ 200)), if_pos hlen]
    · simp only [raw_cmd_body, hval]
      rw [if_neg (by norm_num : ¬(200 ≠ 200)), if_neg (by omega)]
  refine ⟨?_, hraw, ?_, ?_⟩
  · intro cfg num chat now st t payload h hrows
    have hne : (rowsOf payload).isEmpty = false := by
      cases hr : rowsOf payload
      · exact absurd hr hrows
      · rfl
    constructor <;> intro hlen
    · rw [callback_confirm]
      simp only [confirm_branch, h, Bool.false_eq_true, ite_false]
      rw [if_neg (by norm_num : ¬(200 ≠ 200)), hne,
        if_neg (by simp : ¬(false = true)), if_pos hlen]
      exact ⟨rfl, rfl⟩
    · rw [callback_confirm]
      simp only [confirm_branch, h, Bool.false_eq_true, ite_false]
      rw [if_neg (by norm_num : ¬(200 ≠ 200)), hne,
        if_neg (by simp : ¬(false = true)), if_neg (by omega)]
      exact ⟨rfl, rfl⟩
  · have hl := dumps_str_replicate_length 3997
    refine ⟨hl, ?_⟩
    have h := (hraw ⟨"B", "K"⟩ "7990127515" "7990127515" ""
      (Json.str (String.mk (List.replicate 3997 'x'))) (by decide)).2 (by omega)
    rw [h]
  · have hl := dumps_str_replicate_length 3999
    refine ⟨hl, ?_⟩
    have h := (hraw ⟨"B", "K"⟩ "7990127515" "7990127515" ""
      (Json.str (String.mk (List.replicate 3999 'x'))) (by decide)).1 (by omega)
    rw [h]

/-- Witness for C6 at a small concrete payload delivered inline. -/
theorem rendering_size_boundary_witness :
    raw_cmd_body ⟨"B", "K"⟩ ["7990127515"]
        (fun _ => Except.ok ⟨200, "", some (Json.str "hello")⟩) =
      ⟨["Fetching raw upstream (admin) ...", "<pre>" ++ dumps 0 (Json.str "hello") ++ "</pre>"],
       [], ["B?num=7990127515&key=K"]⟩ := by
  have h := (rendering_size_boundary.2.1 ⟨"B", "K"⟩ "7990127515" "7990127515" ""
    (Json.str "hello") (by decide)).2 (by decide)
  rw [h]
  rfl

/-- Claim C7: on every `/raw` invocation, if the admin token or admin
identity is not configured (absent, or falsy as the Python code treats
an id of 0), the handler replies that admin functionality is not
configured; if both are configured and the calling identity does not
exactly equal the admin identity, it replies with the
authorization-denied message; in both denial cases the wrapped handler is
never entered (the output is the same for every possible inner output)
and zero upstream calls are made. -/
theorem admin_gate (acfg : AdminCfg) (cfg : BotConfig) (user : Option Int)
    (args : List String) (up : Upstream) :
    (acfg.adminToken = "" ∨ acfg.adminId.getD 0 = 0 →
      (∀ inner : HOut, require_admin acfg user inner =
        ⟨["Admin functionality not configured on server."], [], []⟩)
      ∧ raw_cmd acfg cfg user args up =
          ⟨["Admin functionality not configured on server."], [], []⟩
      ∧ (raw_cmd acfg cfg user args up).calls = [])
  ∧ (¬(acfg.adminToken = "" ∨ acfg.adminId.getD 0 = 0) → user ≠ acfg.adminId →
      (∀ inner : HOut, require_admin acfg user inner =
        ⟨["You are not authorized to use this command."], [], []⟩)
      ∧ raw_cmd acfg cfg user args up =
          ⟨["You are not authorized to use this command."], [], []⟩
      ∧ (raw_cmd acfg cfg user args up).calls = []) := by
  constructor
  · intro h
    have hr : ∀ inner : HOut, require_admin acfg user inner =
        ⟨["Admin functionality not configured on server."], [], []⟩ := by
      intro inner
      rw [require_admin, if_pos h]
    exact ⟨hr, hr _, by rw [raw_cmd, hr]⟩
  · intro h hu
    have hr : ∀ inner : HOut, require_admin acfg user inner =
        ⟨["You are not authorized to use this command."], [], []⟩ := by
      intro inner
      rw [require_admin, if_neg h, if_neg hu]
    exact ⟨hr, hr _, by rw [raw_cmd, hr]⟩

/-- Witness for C7: unconfigured gate, and configured gate with a
non-admin caller; both deny with zero upstream calls. -/
theorem admin_gate_witness :
    raw_cmd ⟨"", none⟩ ⟨"B", "K"⟩ (some 1) ["7990127515"] (fun _ => Except.error "x") =
      ⟨["Admin functionality not configured on server."], [], []⟩
  ∧ raw_cmd ⟨"tok", some 42⟩ ⟨"B", "K"⟩ (some 1) ["7990127515"] (fun _ => Except.error "x") =
      ⟨["You are not authorized to use this command."], [], []⟩ := by
  constructor
  · exact ((admin_gate ⟨"", none⟩ ⟨"B", "K"⟩ (some 1) ["7990127515"]
      (fun _ => Except.error "x")).1 (Or.inl rfl)).2.1
  · exact ((admin_gate ⟨"tok", some 42⟩ ⟨"B", "K"⟩ (some 1) ["7990127515"]
      (fun _ => Except.error "x")).2 (by simp) (by simp)).2.1
